import Mathlib

/-!
Verification of the analysis-specification core of the `arcana` repository
(`arcana/core/analysis.py`): the condition-expression model (`Operation`),
the immutable specification registry (`AnalysisSpec` and its validators), the
pipeline-resolution dispatcher (`ColumnSpec.select_pipeline_builders`), the
inheritance merge fragment of `make_class`, the subanalysis attribute-mapping
wrapper (`Subanalysis`), and the parameter-value validator
(`_parameter_validator`).

The Python code is shallowly embedded: fallible Python code becomes functions
into `Except PyError`, Python values that appear in the relevant code paths
become the `Value` inductive, and Python exceptions become `PyError`
constructors.  Where the source, as written, raises an exception on every
execution path (for example calling a method with the wrong number of
arguments, or accessing an attribute that the target class does not define),
the embedding throws the corresponding error at the same program point, with a
comment citing the source line.
-/

/-- Python exceptions that the embedded code can raise. -/
inductive PyError where
  | typeError (msg : String)
  | attributeError (msg : String)
  | assertionError
  | indexError
  | keyError (msg : String)
  | valueError (msg : String)
  | stopIteration
  | arcanaDesignError (msg : String)
deriving DecidableEq, Repr

deriving instance DecidableEq for Except

/-- A data format class (`type` objects used as column formats).  Python
classes are modelled nominally: a format has a name and the list of names of
its proper ancestor classes, so `issubclass a b` holds iff `a = b` or `b`'s
name is among `a`'s ancestors. -/
structure Fmt where
  name : String
  ancestors : List String
deriving DecidableEq, Repr

/-- Python values appearing in the embedded code paths: `None`, booleans,
integers, strings and format classes. -/
inductive Value where
  | none
  | bool (b : Bool)
  | int (n : Int)
  | str (s : String)
  | fmt (f : Fmt)
deriving DecidableEq, Repr

/-- Modelled from the spec: `arcana.core.enum.ColumnSalience` is imported by
`analysis.py` but its module is not among the sources.  The spec describes it
as an enum ranking importance from `temp` up to `primary`, with `publication`
the threshold used by `AnalysisSpec.column_specs_validator` and `raw` and
`primary` the members the validator's error message names as acceptable.  The
numeric levels follow the strictly increasing ordering
temp < debug < qa < supplementary < publication < raw < primary, matching the
level pattern of `arcana2.data.enum.Salience` in the sources. -/
inductive ColumnSalience where
  | temp
  | debug
  | qa
  | supplementary
  | publication
  | raw
  | primary
deriving DecidableEq, Repr

def ColumnSalience.level : ColumnSalience → Nat
  | .temp => 0
  | .debug => 20
  | .qa => 40
  | .supplementary => 60
  | .publication => 80
  | .raw => 90
  | .primary => 100

/-- Modelled from the spec: `arcana.core.enum.ParameterSalience` is not among
the sources; the spec lists members such as `required` and `recommended`.
Only membership matters to the embedded code (`Parameter.default_validator`
compares against `required`). -/
inductive ParameterSalience where
  | required
  | check
  | recommended
  | dontCare
deriving DecidableEq, Repr

/-- Modelled from the spec: `arcana.core.enum.CheckSalience` is not among the
sources; it is carried as opaque data by `Check` and never inspected by the
embedded code. -/
inductive CheckSalience where
  | potential
  | probable
  | definite
deriving DecidableEq, Repr

/-- The condition-expression tree of `Operation` (analysis.py lines 23-29).
A source `Operation` is a `node` carrying its `operator` string and its
`operands` tuple; an operand that is not itself an `Operation` (a literal or
a resolved attribute-name string, as produced by `_UnresolvedOp.resolve`) is
embedded as `lit`. -/
inductive Operation where
  | lit (v : Value)
  | node (operator : String) (operands : List Operation)

mutual

def Operation.beq : Operation → Operation → Bool
  | .lit v, .lit w => v = w
  | .node op1 xs, .node op2 ys => op1 = op2 && Operation.beqList xs ys
  | _, _ => false

def Operation.beqList : List Operation → List Operation → Bool
  | [], [] => true
  | x :: xs, y :: ys => Operation.beq x y && Operation.beqList xs ys
  | _, _ => false

end

mutual

def Operation.beq_iff : ∀ a b : Operation, Operation.beq a b = true ↔ a = b
  | .lit _, .lit _ => by simp [Operation.beq]
  | .lit _, .node _ _ => by simp [Operation.beq]
  | .node _ _, .lit _ => by simp [Operation.beq]
  | .node _ xs, .node _ ys => by
      simp only [Operation.beq, Bool.and_eq_true, decide_eq_true_eq, Operation.node.injEq]
      have h := Operation.beqList_iff xs ys
      constructor
      · rintro ⟨h1, h2⟩
        exact ⟨h1, h.mp h2⟩
      · rintro ⟨h1, h2⟩
        exact ⟨h1, h.mpr h2⟩

def Operation.beqList_iff : ∀ xs ys : List Operation, Operation.beqList xs ys = true ↔ xs = ys
  | [], [] => by simp [Operation.beqList]
  | [], _ :: _ => by simp [Operation.beqList]
  | _ :: _, [] => by simp [Operation.beqList]
  | x :: xs, y :: ys => by
      simp only [Operation.beqList, Bool.and_eq_true, List.cons.injEq]
      have h1 := Operation.beq_iff x y
      have h2 := Operation.beqList_iff xs ys
      constructor
      · rintro ⟨a, b⟩
        exact ⟨h1.mp a, h2.mp b⟩
      · rintro ⟨a, b⟩
        exact ⟨h1.mpr a, h2.mpr b⟩

end

instance : DecidableEq Operation := fun a b =>
  decidable_of_iff (Operation.beq a b = true) (Operation.beq_iff a b)

/-- Embeds `Switch` (analysis.py lines 136-146).  The `method : Callable` and
`defined_in : type` fields are represented by the method name recorded at
declaration time; builder grouping compares switches by attrs value
equality, which this nominal representation mirrors. -/
structure Switch where
  name : String
  desc : String
  inputs : List String
  parameters : List String
deriving DecidableEq, Repr

/-- Embeds `PipelineBuilder` (analysis.py lines 149-162).  The `method` callable and
`defined_in` class object are omitted as non-data fields; every field the
embedded algorithms read is present. -/
structure PipelineBuilder where
  name : String
  desc : String
  parameters : List String
  inputs : List String
  outputs : List String
  condition : Option Operation
  switch : Option Switch
deriving DecidableEq

/-- Embeds `ColumnSpec` (analysis.py lines 55-68). -/
structure ColumnSpec where
  name : String
  type : Fmt
  desc : String
  row_frequency : Nat
  salience : ColumnSalience
  defined_in : List String
  modified : List (String × Value)
  mapped_from : Option (String × String) := Option.none
deriving DecidableEq, Repr

/-- Embeds `Parameter` (analysis.py lines 109-125). -/
structure Parameter where
  name : String
  type : Fmt
  desc : String
  salience : ParameterSalience
  choices : Option (List Value)
  lower_bound : Option Value
  upper_bound : Option Value
  defined_in : List String
  modified : List (String × Value)
  default : Value
  mapped_from : Option (String × String) := Option.none
deriving DecidableEq, Repr

/-- Embeds `Check` (analysis.py lines 165-177).  `make_class` passes the column
*name* for the `column` field (line 610 and 617). -/
structure Check where
  name : String
  column : String
  desc : String
  inputs : List String
  parameters : List String
  salience : CheckSalience
deriving DecidableEq, Repr

/-- Embeds `SubanalysisSpec` (analysis.py lines 180-189). -/
structure SubanalysisSpec where
  name : String
  desc : String
  type : String
  mappings : List (String × String)
  defined_in : List String
deriving DecidableEq, Repr

/-- Embeds `SubanalysisSpec.mapping` (analysis.py lines 191-196): the first mapping
pair whose first component equals `name`; the exhausted `next` raises
`StopIteration`, caught and re-raised as `KeyError`. -/
def SubanalysisSpec.mapping (spec : SubanalysisSpec) (name : String) : Except PyError String :=
  match spec.mappings.find? (fun m => name = m.1) with
  | some m => .ok m.2
  | Option.none => .error (.keyError ("No mapping from " ++ name ++ " in sub-analysis"))

/-- Embeds `AnalysisSpec` (analysis.py lines 260-270): the immutable registry of all
six entity kinds plus the data-space type (nominal). -/
structure AnalysisSpec where
  space : String
  column_specs : List ColumnSpec
  pipeline_builders : List PipelineBuilder
  parameters : List Parameter
  switches : List Switch
  checks : List Check
  subanalyses : List SubanalysisSpec

/-- A dataset column as consulted by `is_provided`: only its resolved
`format` is read (analysis.py lines 42-47). -/
structure DataColumn where
  format : Fmt
deriving DecidableEq, Repr

/-- The dataset collaborator, reduced to its consumed interface:
`dataset[column_name]` lookup returning a column with a `format`. -/
structure Dataset where
  columns : List (String × DataColumn)
deriving Repr

/-- Embeds `dataset[name]`: `KeyError` when the name is absent or the key is not a
string. -/
def Dataset.getItem (d : Dataset) (key : Value) : Except PyError DataColumn :=
  match key with
  | .str s =>
    match d.columns.find? (fun c => c.1 = s) with
    | some c => .ok c.2
    | Option.none => .error (.keyError s)
  | _ => .error (.keyError "dataset keys are column names")

/-- Embeds `getattr(analysis, name)` for the plain data attributes of an analysis
instance (parameter values and bound column-slot names), modelled as an
association list; a missing attribute raises `AttributeError`, a non-string
attribute name raises `TypeError`. -/
def pyGetattr (attrs : List (String × Value)) (name : Value) : Except PyError Value :=
  match name with
  | .str s =>
    match attrs.find? (fun a => a.1 = s) with
    | some a => .ok a.2
    | Option.none => .error (.attributeError s)
  | _ => .error (.typeError "attribute name must be string")

/-- Embeds `getattr(operator_module, self.operator)(*operands)` (analysis.py
line 51): the fixed table of `operator`-module functions reachable from
`_UnresolvedOp` (`eq`, `ne`, `lt`, `le`, `gt`, `ge`, `and_`, `or_`);
`invert_`, which `_UnresolvedOp.__invert__` emits, is *not* an attribute of
Python's `operator` module, so it raises `AttributeError`.  Comparisons are
defined for int/int and str/str pairs, `and_`/`or_` (bitwise `&`/`|`) for
bool/bool and int/int pairs; other argument combinations raise `TypeError`
as in Python.  Wrong arities raise `TypeError`. -/
def operatorApply (oper : String) (args : List Value) : Except PyError Value :=
  match oper, args with
  | "eq", [a, b] => .ok (.bool (a = b))
  | "ne", [a, b] => .ok (.bool (a ≠ b))
  | "lt", [.int a, .int b] => .ok (.bool (a < b))
  | "lt", [.str a, .str b] => .ok (.bool (a < b))
  | "le", [.int a, .int b] => .ok (.bool (a ≤ b))
  | "le", [.str a, .str b] => .ok (.bool (a ≤ b))
  | "gt", [.int a, .int b] => .ok (.bool (b < a))
  | "gt", [.str a, .str b] => .ok (.bool (b < a))
  | "ge", [.int a, .int b] => .ok (.bool (b ≤ a))
  | "ge", [.str a, .str b] => .ok (.bool (b ≤ a))
  | "and_", [.bool a, .bool b] => .ok (.bool (a && b))
  | "and_", [.int a, .int b] => .ok (.int (a.land b))
  | "or_", [.bool a, .bool b] => .ok (.bool (a || b))
  | "or_", [.int a, .int b] => .ok (.int (a.lor b))
  | "lt", [_, _] => .error (.typeError "unsupported operand types for lt")
  | "le", [_, _] => .error (.typeError "unsupported operand types for le")
  | "gt", [_, _] => .error (.typeError "unsupported operand types for gt")
  | "ge", [_, _] => .error (.typeError "unsupported operand types for ge")
  | "and_", [_, _] => .error (.typeError "unsupported operand types for and_")
  | "or_", [_, _] => .error (.typeError "unsupported operand types for or_")
  | "eq", _ => .error (.typeError "eq expected 2 arguments")
  | "ne", _ => .error (.typeError "ne expected 2 arguments")
  | "lt", _ => .error (.typeError "lt expected 2 arguments")
  | "le", _ => .error (.typeError "le expected 2 arguments")
  | "gt", _ => .error (.typeError "gt expected 2 arguments")
  | "ge", _ => .error (.typeError "ge expected 2 arguments")
  | "and_", _ => .error (.typeError "and_ expected 2 arguments")
  | "or_", _ => .error (.typeError "or_ expected 2 arguments")
  | _, _ => .error (.attributeError ("module operator has no attribute " ++ oper))

mutual

/-- Embeds `Operation.evaluate` (analysis.py lines 31-52).  Line 32 evaluates
`[o.evaluate(analysis, dataset) for o in self.operands]` before any operator
dispatch; an operand that is not itself an `Operation` (a literal or a
resolved attribute-name string) has no `evaluate` attribute, so Python
raises `AttributeError` at that point.  The `lit` case of this function is
that operand-position failure; the `node` case is the method body. -/
def Operation.evaluate : Operation → List (String × Value) → Dataset → Except PyError Value
  | .lit _, _, _ =>
    -- line 32: str/int/bool/type operands have no `evaluate` attribute
    .error (.attributeError "operand object has no attribute evaluate")
  | .node oper args, analysis, dataset =>
    match Operation.evalOperands args analysis dataset with
    | .error e => .error e
    | .ok operands =>
      if oper = "value_of" then
        -- lines 33-35: assert len(operands) == 1; getattr(analysis, operands[0])
        match operands with
        | [v] => pyGetattr analysis v
        | _ => .error .assertionError
      else if oper = "is_provided" then
        -- lines 36-49
        if operands.length > 2 then .error .assertionError
        else
          match operands with
          | [] => .error .indexError
          | v :: rest =>
            match pyGetattr analysis v with
            | .error e => .error e
            | .ok column_name =>
              if column_name = Value.none then .ok (.bool false)
              else
                match dataset.getItem column_name with
                | .error e => .error e
                | .ok column =>
                  match rest with
                  | [in_format] =>
                    -- `column.format is in_format or issubclass(column.format, in_format)`
                    match in_format with
                    | .fmt f =>
                      .ok (.bool (column.format = f || f.name ∈ column.format.ancestors))
                    | _ => .error (.typeError "issubclass arg 2 must be a class")
                  | [] => .ok (.bool true)
                  | _ => .error .assertionError
      else
        operatorApply oper operands

/-- The operand-list evaluation of analysis.py line 32, stopping at the first
raised exception as a Python list comprehension does. -/
def Operation.evalOperands : List Operation → List (String × Value) → Dataset →
    Except PyError (List Value)
  | [], _, _ => .ok []
  | o :: os, analysis, dataset =>
    match o.evaluate analysis dataset with
    | .error e => .error e
    | .ok v =>
      match Operation.evalOperands os analysis dataset with
      | .error e => .error e
      | .ok vs => .ok (v :: vs)

end

/-- Embeds `AnalysisSpec.column_spec` (analysis.py lines 296-297): `next(...)` over
the filtered generator without a default, so an absent name raises a bare
`StopIteration`. -/
def AnalysisSpec.column_spec (s : AnalysisSpec) (name : String) : Except PyError ColumnSpec :=
  match s.column_specs.find? (fun c => c.name = name) with
  | some c => .ok c
  | Option.none => .error .stopIteration

/-- Embeds `AnalysisSpec.parameter` (lines 299-300). -/
def AnalysisSpec.parameter (s : AnalysisSpec) (name : String) : Except PyError Parameter :=
  match s.parameters.find? (fun p => p.name = name) with
  | some p => .ok p
  | Option.none => .error .stopIteration

/-- Embeds `AnalysisSpec.pipeline_builder` (lines 302-303). -/
def AnalysisSpec.pipeline_builder (s : AnalysisSpec) (name : String) :
    Except PyError PipelineBuilder :=
  match s.pipeline_builders.find? (fun p => p.name = name) with
  | some p => .ok p
  | Option.none => .error .stopIteration

/-- Embeds `AnalysisSpec.switch` (lines 305-306). -/
def AnalysisSpec.switch (s : AnalysisSpec) (name : String) : Except PyError Switch :=
  match s.switches.find? (fun p => p.name = name) with
  | some p => .ok p
  | Option.none => .error .stopIteration

/-- Embeds `AnalysisSpec.check` (lines 308-309). -/
def AnalysisSpec.check (s : AnalysisSpec) (name : String) : Except PyError Check :=
  match s.checks.find? (fun p => p.name = name) with
  | some p => .ok p
  | Option.none => .error .stopIteration

/-- Embeds `AnalysisSpec.subanalysis` (lines 311-312). -/
def AnalysisSpec.subanalysis (s : AnalysisSpec) (name : String) :
    Except PyError SubanalysisSpec :=
  match s.subanalyses.find? (fun p => p.name = name) with
  | some p => .ok p
  | Option.none => .error .stopIteration

/-- An analysis *instance* as consumed by the dispatcher: its assembled
`__spec__`, its plain data attributes (parameter values and bound
column-slot names) and its subanalysis attributes, each holding the
`SubanalysisSpec` and nested instance of the `Subanalysis` wrapper (the
wrapper's back-reference to the parent is supplied where needed rather than
stored, keeping the value finite). -/
inductive AnalysisInstance where
  | mk (spec : AnalysisSpec) (attrs : List (String × Value))
      (subs : List (String × SubanalysisSpec × AnalysisInstance))

def AnalysisInstance.spec : AnalysisInstance → AnalysisSpec
  | .mk s _ _ => s

def AnalysisInstance.attrs : AnalysisInstance → List (String × Value)
  | .mk _ a _ => a

def AnalysisInstance.subs : AnalysisInstance → List (String × SubanalysisSpec × AnalysisInstance)
  | .mk _ _ s => s

/-- Embeds `ColumnSpec.select_pipeline_builders` (analysis.py lines 70-106), the
pipeline-resolution dispatcher.  Three points of this method raise on every
path that reaches them, and the embedding throws at the same points:

* lines 74-81: the comprehension predicate calls
  `m.condition.evaluate(self, analysis, dataset)`, passing three positional
  arguments to `Operation.evaluate(self, analysis, dataset)`, a bound method
  with two positional parameters, so the first candidate whose `condition`
  is not `None` raises `TypeError` and no candidate can ever be selected by
  its condition;
* line 88: `subanalysis.__spec__.column(self.mapped_from[1])` — the wrapper
  forwards `__spec__` to the nested `AnalysisSpec`, whose accessors are
  named `column_spec`, `parameter`, `pipeline_builder`, `switch`, `check`
  and `subanalysis` (lines 296-312); no object involved has a `column`
  attribute, so the lookup raises `AttributeError` and the recursive call of
  line 89 is unreachable;
* lines 97-105: `all_switches.count(p.switch)` counts each selected
  builder's own switch, so the count is at least 1 (truthy) for every
  builder and `with_duplicate_switches` is non-empty whenever `selected`
  is, making line 102 raise the ambiguity error before line 106 can
  return. -/
def ColumnSpec.select_pipeline_builders (self : ColumnSpec) (analysis : AnalysisInstance)
    (dataset : Dataset) : Except PyError (List PipelineBuilder) :=
  let candidates := analysis.spec.pipeline_builders.filter (fun p => self.name ∈ p.outputs)
  if candidates.any (fun m => m.condition.isSome) then
    -- lines 74-81: TypeError at the first candidate with a non-None condition
    .error (.typeError "evaluate() takes 3 positional arguments but 4 were given")
  else
    -- with every condition None, the comprehension of lines 74-81 yields []
    let selected : List PipelineBuilder := []
    -- lines 83-84: fall back to the unconditional candidates
    let selected :=
      if selected.isEmpty then candidates.filter (fun p => p.condition.isNone) else selected
    -- lines 86-89: delegation into the mapped subanalysis
    if selected.isEmpty ∧ self.mapped_from.isSome then
      match self.mapped_from with
      | Option.none => .error (.attributeError "unreachable")
      | some mf =>
        match analysis.subs.find? (fun sub => sub.1 = mf.1) with
        | some _ =>
          -- line 88 raises AttributeError: no `column` accessor exists
          .error (.attributeError "AnalysisSpec object has no attribute column")
        | Option.none =>
          match analysis.attrs.find? (fun a => a.1 = mf.1) with
          | some _ =>
            -- a plain value has no `__spec__` attribute
            .error (.attributeError "object has no attribute __spec__")
          | Option.none =>
            -- `getattr(analysis, self.mapped_from[0])` itself fails
            .error (.attributeError mf.1)
    else if selected.isEmpty then
      -- lines 91-96
      .error (.arcanaDesignError
        "Could not find any potential pipeline builders with conditions that match the current analysis parameterisation and provided dataset")
    else
      -- lines 97-105
      let all_switches := selected.map PipelineBuilder.switch
      let with_duplicate_switches :=
        selected.filter (fun p => all_switches.countP (fun sw => decide (sw = p.switch)) ≠ 0)
      if ¬ with_duplicate_switches.isEmpty then
        .error (.arcanaDesignError
          "Multiple potential pipelines match criteria for the given analysis configuration and provided dataset")
      else
        .ok selected

/-- A Python `for` loop over a list that raises on the first offending
element. -/
def checkAll {α : Type} (f : α → Except PyError Unit) : List α → Except PyError Unit
  | [] => .ok ()
  | x :: xs =>
    match f x with
    | .error e => .error e
    | .ok _ => checkAll f xs

/-- Embeds `unique_names` (analysis.py lines 254-257): `ValueError` when any name
occurs more than once. -/
def unique_names (names : List String) : Except PyError Unit :=
  if names.any (fun n => 1 < names.countP (fun m => decide (m = n))) then
    .error (.valueError "Duplicate names found in provided tuple")
  else .ok ()

/-- The per-column body of `AnalysisSpec.column_specs_validator` (analysis.py
lines 320-351).  The `defaultdict` groups the builders producing the column
by the value pair `(condition, switch)` (attrs value equality); a group of
two or more builders triggers the ambiguity error.  `sorted_by_cond` is empty
exactly when no builder lists the column among its outputs. -/
def checkColumnSpec (pipeline_builders : List PipelineBuilder) (column_spec : ColumnSpec) :
    Except PyError Unit :=
  let producers := pipeline_builders.filter (fun p => column_spec.name ∈ p.outputs)
  if producers.any (fun p =>
      1 < producers.countP (fun q => decide (q.condition = p.condition ∧ q.switch = p.switch))) then
    .error (.arcanaDesignError
      ("Multiple pipelines provide outputs for " ++ column_spec.name ++ " under matching conditions"))
  else if producers.isEmpty && column_spec.mapped_from.isNone then
    if (pipeline_builders.filter (fun p => column_spec.name ∈ p.inputs)).isEmpty then
      .error (.arcanaDesignError
        (column_spec.name ++ " is neither an input nor output to any pipeline"))
    else if column_spec.salience.level ≤ ColumnSalience.publication.level then
      .error (.arcanaDesignError
        (column_spec.name ++ " is not generated by any pipeline yet its salience is not specified as raw or primary"))
    else .ok ()
  else .ok ()

/-- Embeds `AnalysisSpec.column_specs_validator` (lines 318-351). -/
def AnalysisSpec.column_specs_validator (s : AnalysisSpec) : Except PyError Unit :=
  checkAll (checkColumnSpec s.pipeline_builders) s.column_specs

/-- Embeds `AnalysisSpec.pipeline_builders_validator` (lines 353-361): every output
of every builder must be a declared column name. -/
def AnalysisSpec.pipeline_builders_validator (s : AnalysisSpec) : Except PyError Unit :=
  checkAll (fun pb =>
    if (pb.outputs.filter (fun o => decide (o ∉ s.column_specs.map ColumnSpec.name))).isEmpty then
      .ok ()
    else
      .error (.arcanaDesignError (pb.name ++ " pipeline outputs to unknown columns")))
    s.pipeline_builders

/-- Construction-time validation of `AnalysisSpec`.  attrs generates an
`__init__` that sets every field first and then runs all field validators at
the end, in field-definition order, a field's `validator=` argument running
before its decorator-registered validator.  Hence: `unique_names` then
`column_specs_validator` for `column_specs`; `unique_names` then
`pipeline_builders_validator` for `pipeline_builders`; then `unique_names`
for `parameters`, `switches`, `checks` and `subanalyses`. -/
def AnalysisSpec.validate (s : AnalysisSpec) : Except PyError Unit := do
  unique_names (s.column_specs.map ColumnSpec.name)
  s.column_specs_validator
  unique_names (s.pipeline_builders.map PipelineBuilder.name)
  s.pipeline_builders_validator
  unique_names (s.parameters.map Parameter.name)
  unique_names (s.switches.map Switch.name)
  unique_names (s.checks.map Check.name)
  unique_names (s.subanalyses.map SubanalysisSpec.name)

/-- Lines 656-672 of `make_class`: for each pipeline builder of a base
specification that is re-declared under the same name among the derived
builders, every base output must still be present; a missing output aborts
assembly.  A base builder that is not re-declared is skipped (the
`StopIteration` of the inner `next` is caught and turned into `continue`). -/
def check_overridden_outputs (pipeline_builders base_builders : List PipelineBuilder) :
    Except PyError Unit :=
  checkAll (fun base_builder =>
    match pipeline_builders.find? (fun b => b.name = base_builder.name) with
    | Option.none => .ok ()
    | some builder =>
      if (base_builder.outputs.filter (fun o => decide (o ∉ builder.outputs))).isEmpty then
        .ok ()
      else
        .error (.arcanaDesignError
          ("outputs are missing from " ++ builder.name ++ " pipeline builder, which were defined by the overridden method")))
    base_builders

/-- Lines 673-680 of `make_class`:
`lst.extend(b for b in base_lst if b.name not in (x.name for x in lst))`.
The generator re-reads the growing list, so a base builder is appended only
if its name is absent from the list at the moment it is considered. -/
def extend_unless_present (lst : List PipelineBuilder) :
    List PipelineBuilder → List PipelineBuilder
  | [] => lst
  | b :: bs =>
    if b.name ∈ lst.map PipelineBuilder.name then extend_unless_present lst bs
    else extend_unless_present (lst ++ [b]) bs

/-- The pipeline-builder part of the per-base merge loop of `make_class`
(lines 656-680): the output-preservation check followed by inheritance of
the base builders that are not re-declared. -/
def merge_base_builders (pipeline_builders base_builders : List PipelineBuilder) :
    Except PyError (List PipelineBuilder) :=
  match check_overridden_outputs pipeline_builders base_builders with
  | .error e => .error e
  | .ok _ => .ok (extend_unless_present pipeline_builders base_builders)

/-- Python instance-attribute assignment on an association list: replace the
existing binding or append a new one. -/
def pySetattr : List (String × Value) → String → Value → List (String × Value)
  | [], name, value => [(name, value)]
  | a :: as, name, value =>
    if a.1 = name then (name, value) :: as else a :: pySetattr as name value

/-- Embeds `Subanalysis.__getattr__` (analysis.py lines 208-219), for an attribute
name other than the wrapper's own fields `_spec`, `_analysis` and `_parent`
(Python consults `__getattr__` only after normal lookup fails).  The initial
`object.__getattr__(self, name)` call raises `AttributeError` unconditionally
because class `object` has no `__getattr__` attribute, and the `except`
clause swallows it, so lines 209-212 are a no-op.  `analysis` and `parent`
are the data attributes of the nested and parent analysis instances. -/
def Subanalysis.getattr (spec : SubanalysisSpec) (analysis parent : List (String × Value))
    (name : String) : Except PyError Value :=
  match spec.mapping name with
  | .ok mapped_name => pyGetattr parent (.str mapped_name)
  | .error _ => pyGetattr analysis (.str name)

/-- Embeds `Subanalysis.__setattr__` (analysis.py lines 221-235), for an attribute
name other than `_spec`, `_analysis`, `_parent` (those write the wrapper
itself, lines 222-223, and leave the nested instance untouched).  A mapped
name is rejected with `AttributeError`; an unmapped name passes through to
the nested analysis instance, whose updated attribute map is returned. -/
def Subanalysis.setattr (spec : SubanalysisSpec) (analysis : List (String × Value))
    (name : String) (value : Value) : Except PyError (List (String × Value)) :=
  match spec.mapping name with
  | .ok mapped_name =>
    .error (.attributeError
      ("Cannot set value of attribute " ++ name ++ " in " ++ spec.name ++
        " sub-analysis as it is mapped to " ++ mapped_name ++ " in the parent analysis"))
  | .error _ => .ok (pySetattr analysis name value)

/-- Python `>=` on the values a parameter can hold: defined for int/int and
str/str pairs, `TypeError` otherwise. -/
def pyGe : Value → Value → Except PyError Bool
  | .int a, .int b => .ok (decide (b ≤ a))
  | .str a, .str b => .ok (decide (b ≤ a))
  | _, _ => .error (.typeError "unsupported comparison ge")

/-- Python `<=` on the values a parameter can hold. -/
def pyLe : Value → Value → Except PyError Bool
  | .int a, .int b => .ok (decide (a ≤ b))
  | .str a, .str b => .ok (decide (a ≤ b))
  | _, _ => .error (.typeError "unsupported comparison le")

/-- Embeds `_parameter_validator` (analysis.py lines 1080-1097), the attrs field
validator attached to every parameter attribute by
`_TempParameterAttr.to_attrs_field` (line 1028).  `choices`, `lower_bound`
and `upper_bound` come from the field metadata.  The bound test mirrors the
short-circuit evaluation of
`(lower_bound is None or val >= lower_bound) and (upper_bound is None or val <= upper_bound)`. -/
def parameterValidator (choices : Option (List Value))
    (lower_bound upper_bound : Option Value) (pname : String) (val : Value) :
    Except PyError Unit :=
  match choices with
  | some cs =>
    if val ∈ cs then .ok ()
    else .error (.valueError ("not a valid value for " ++ pname ++ " parameter"))
  | Option.none =>
    let bound_msg := "Value of " ++ pname ++ " is not within the specified bounds"
    match lower_bound with
    | Option.none =>
      match upper_bound with
      | Option.none => .ok ()
      | some ub =>
        match pyLe val ub with
        | .error e => .error e
        | .ok r => if r then .ok () else .error (.valueError bound_msg)
    | some lb =>
      match pyGe val lb with
      | .error e => .error e
      | .ok l =>
        if l then
          match upper_bound with
          | Option.none => .ok ()
          | some ub =>
            match pyLe val ub with
            | .error e => .error e
            | .ok r => if r then .ok () else .error (.valueError bound_msg)
        else .error (.valueError bound_msg)

/-- Assignment of a parameter attribute on an analysis instance.  The class
is produced by `attrs.define` (line 471), whose default `on_setattr` runs
the field validator on *every* assignment, so `_parameter_validator` guards
each write, not only construction. -/
def setParameterValue (p : Parameter) (attrs : List (String × Value)) (val : Value) :
    Except PyError (List (String × Value)) :=
  match parameterValidator p.choices p.lower_bound p.upper_bound p.name val with
  | .error e => .error e
  | .ok _ => .ok (pySetattr attrs p.name val)

/-! ### Concrete fixtures used by witnesses and counterexamples -/

def fmtNifti : Fmt := ⟨"NiftiGz", ["Nifti", "FileGroup"]⟩

def fmtOther : Fmt := ⟨"Zip", ["FileGroup"]⟩

def colOut : ColumnSpec :=
  { name := "out", type := fmtNifti, desc := "output column", row_frequency := 0,
    salience := .supplementary, defined_in := ["Toy"], modified := [],
    mapped_from := Option.none }

def builderB2 : PipelineBuilder :=
  { name := "b2", desc := "unconditional builder", parameters := [], inputs := [],
    outputs := ["out"], condition := Option.none, switch := Option.none }

def specOk : AnalysisSpec :=
  { space := "ClinicalStudy", column_specs := [colOut], pipeline_builders := [builderB2],
    parameters := [], switches := [], checks := [], subanalyses := [] }

def instOk : AnalysisInstance := .mk specOk [] []

def dsEmpty : Dataset := ⟨[]⟩

def subMapSpec : SubanalysisSpec :=
  { name := "sub", desc := "nested", type := "Inner", mappings := [("a", "pa")],
    defined_in := ["Toy"] }

def paramChoices : Parameter :=
  { name := "mode", type := fmtOther, desc := "mode parameter",
    salience := .recommended, choices := some [Value.str "fast", Value.str "slow"],
    lower_bound := Option.none, upper_bound := Option.none, defined_in := ["Toy"],
    modified := [], default := Value.str "fast", mapped_from := Option.none }

def paramBounded : Parameter :=
  { name := "iters", type := fmtOther, desc := "iteration count",
    salience := .recommended, choices := Option.none,
    lower_bound := some (Value.int 1), upper_bound := some (Value.int 10),
    defined_in := ["Toy"], modified := [], default := Value.int 5,
    mapped_from := Option.none }

def builderB3 : PipelineBuilder :=
  { name := "b3", desc := "second unconditional builder", parameters := [], inputs := [],
    outputs := ["out"], condition := Option.none, switch := Option.none }

def colD : ColumnSpec :=
  { name := "d", type := fmtNifti, desc := "derived column", row_frequency := 0,
    salience := .supplementary, defined_in := ["Toy"], modified := [],
    mapped_from := Option.none }

def builderIn : PipelineBuilder :=
  { name := "b", desc := "consumes c, produces d", parameters := [], inputs := ["c"],
    outputs := ["d"], condition := Option.none, switch := Option.none }

def colPubIn : ColumnSpec :=
  { name := "c", type := fmtNifti, desc := "externally supplied column", row_frequency := 0,
    salience := .publication, defined_in := ["Toy"], modified := [],
    mapped_from := Option.none }

def specPubOrphan : AnalysisSpec :=
  { space := "ClinicalStudy", column_specs := [colPubIn, colD],
    pipeline_builders := [builderIn], parameters := [], switches := [], checks := [],
    subanalyses := [] }

def colRawIn : ColumnSpec :=
  { name := "c", type := fmtNifti, desc := "raw input column", row_frequency := 0,
    salience := .raw, defined_in := ["Toy"], modified := [],
    mapped_from := Option.none }

def specRawOrphan : AnalysisSpec :=
  { space := "ClinicalStudy", column_specs := [colRawIn, colD],
    pipeline_builders := [builderIn], parameters := [], switches := [], checks := [],
    subanalyses := [] }

def baseP : PipelineBuilder :=
  { name := "p", desc := "base version", parameters := [], inputs := [],
    outputs := ["x"], condition := Option.none, switch := Option.none }

def derivedP : PipelineBuilder :=
  { name := "p", desc := "derived version adding an output", parameters := [],
    inputs := [], outputs := ["x", "y"], condition := Option.none,
    switch := Option.none }

def opValueOfMode : Operation := .node "value_of" [.lit (.str "mode")]

def opModeIsFast : Operation := .node "eq" [opValueOfMode, .lit (.str "fast")]

def builderB1 : PipelineBuilder :=
  { name := "b1", desc := "conditional builder", parameters := ["mode"], inputs := [],
    outputs := ["out"], condition := some opModeIsFast, switch := Option.none }

def specTwoBuilders : AnalysisSpec :=
  { space := "ClinicalStudy", column_specs := [colOut],
    pipeline_builders := [builderB1, builderB2], parameters := [paramChoices],
    switches := [], checks := [], subanalyses := [] }

def instModeSlow : AnalysisInstance := .mk specTwoBuilders [("mode", .str "slow")] []

def colInner : ColumnSpec :=
  { name := "inner", type := fmtNifti, desc := "column of the nested analysis",
    row_frequency := 0, salience := .supplementary, defined_in := ["Inner"],
    modified := [], mapped_from := Option.none }

def builderInner : PipelineBuilder :=
  { name := "bi", desc := "produces inner", parameters := [], inputs := [],
    outputs := ["inner"], condition := Option.none, switch := Option.none }

def specInner : AnalysisSpec :=
  { space := "ClinicalStudy", column_specs := [colInner],
    pipeline_builders := [builderInner], parameters := [], switches := [], checks := [],
    subanalyses := [] }

def subSpecC4 : SubanalysisSpec :=
  { name := "sub", desc := "nested analysis", type := "Inner",
    mappings := [("inner", "m")], defined_in := ["Outer"] }

def colMapped : ColumnSpec :=
  { name := "m", type := fmtNifti, desc := "column mapped from the subanalysis",
    row_frequency := 0, salience := .supplementary, defined_in := ["Outer"],
    modified := [], mapped_from := some ("sub", "inner") }

def specOuter : AnalysisSpec :=
  { space := "ClinicalStudy", column_specs := [colMapped], pipeline_builders := [],
    parameters := [], switches := [], checks := [], subanalyses := [subSpecC4] }

def instOuter : AnalysisInstance :=
  .mk specOuter [] [("sub", subSpecC4, .mk specInner [] [])]

def opIsProvidedX : Operation := .node "is_provided" [.lit (.str "x")]

def dsWithColx : Dataset := ⟨[("colx", ⟨fmtNifti⟩)]⟩

/-! ### General lemmas about the embedded combinators -/

theorem checkAll_ok_iff {α : Type} (f : α → Except PyError Unit) :
    ∀ (l : List α), checkAll f l = .ok () ↔ ∀ x ∈ l, f x = .ok ()
  | [] => by simp [checkAll]
  | x :: xs => by
    simp only [checkAll, List.mem_cons]
    cases hfx : f x with
    | error e =>
      simp only [hfx]
      constructor
      · intro h
        exact absurd h (by simp)
      · intro h
        exact absurd (h x (Or.inl rfl)) (by simp [hfx])
    | ok u =>
      cases u
      simp only [hfx]
      rw [checkAll_ok_iff f xs]
      constructor
      · intro h y hy
        rcases hy with rfl | hy
        · exact hfx
        · exact h y hy
      · intro h y hy
        exact h y (Or.inr hy)

theorem exceptSeq_ok {a : Except PyError Unit} {f : Unit → Except PyError Unit}
    (h : (a >>= f) = .ok ()) : a = .ok () ∧ f () = .ok () := by
  cases a with
  | error e => simp [Bind.bind, Except.bind] at h
  | ok u =>
    cases u
    refine ⟨rfl, ?_⟩
    simpa [Bind.bind, Except.bind] using h

/-- A spec that validates has, in particular, run `column_specs_validator`
successfully. -/
theorem validate_ok_column_specs_validator {s : AnalysisSpec}
    (h : s.validate = .ok ()) : s.column_specs_validator = .ok () := by
  unfold AnalysisSpec.validate at h
  obtain ⟨-, h⟩ := exceptSeq_ok h
  obtain ⟨h2, -⟩ := exceptSeq_ok h
  exact h2

/-! ### C10 -/

/-- C10: for a name carried by no entity of the queried kind, each of the six
lookup-by-name accessors of `AnalysisSpec` (`column_spec`, `parameter`,
`pipeline_builder`, `switch`, `check`, `subanalysis`) raises a bare
`StopIteration` from the exhausted `next`, rather than returning a value,
`None`, or a designed `ArcanaDesignError`. -/
theorem accessors_absent_raise_stopIteration (s : AnalysisSpec) (name : String) :
    ((∀ c ∈ s.column_specs, c.name ≠ name) →
      s.column_spec name = .error .stopIteration)
  ∧ ((∀ p ∈ s.parameters, p.name ≠ name) →
      s.parameter name = .error .stopIteration)
  ∧ ((∀ p ∈ s.pipeline_builders, p.name ≠ name) →
      s.pipeline_builder name = .error .stopIteration)
  ∧ ((∀ p ∈ s.switches, p.name ≠ name) →
      s.switch name = .error .stopIteration)
  ∧ ((∀ p ∈ s.checks, p.name ≠ name) →
      s.check name = .error .stopIteration)
  ∧ ((∀ p ∈ s.subanalyses, p.name ≠ name) →
      s.subanalysis name = .error .stopIteration) := by
  refine ⟨fun h => ?_, fun h => ?_, fun h => ?_, fun h => ?_, fun h => ?_, fun h => ?_⟩
  · have hf : s.column_specs.find? (fun c => c.name = name) = Option.none := by
      rw [List.find?_eq_none]
      intro c hc
      simpa using h c hc
    simp [AnalysisSpec.column_spec, hf]
  · have hf : s.parameters.find? (fun p => p.name = name) = Option.none := by
      rw [List.find?_eq_none]
      intro p hp
      simpa using h p hp
    simp [AnalysisSpec.parameter, hf]
  · have hf : s.pipeline_builders.find? (fun p => p.name = name) = Option.none := by
      rw [List.find?_eq_none]
      intro p hp
      simpa using h p hp
    simp [AnalysisSpec.pipeline_builder, hf]
  · have hf : s.switches.find? (fun p => p.name = name) = Option.none := by
      rw [List.find?_eq_none]
      intro p hp
      simpa using h p hp
    simp [AnalysisSpec.switch, hf]
  · have hf : s.checks.find? (fun p => p.name = name) = Option.none := by
      rw [List.find?_eq_none]
      intro p hp
      simpa using h p hp
    simp [AnalysisSpec.check, hf]
  · have hf : s.subanalyses.find? (fun p => p.name = name) = Option.none := by
      rw [List.find?_eq_none]
      intro p hp
      simpa using h p hp
    simp [AnalysisSpec.subanalysis, hf]

/-- Witness for C10 at the concrete one-column spec `specOk` and the absent
name `"missing"`. -/
theorem accessors_absent_raise_stopIteration_witness :
    specOk.column_spec "missing" = .error .stopIteration
  ∧ specOk.parameter "missing" = .error .stopIteration
  ∧ specOk.pipeline_builder "missing" = .error .stopIteration
  ∧ specOk.switch "missing" = .error .stopIteration
  ∧ specOk.check "missing" = .error .stopIteration
  ∧ specOk.subanalysis "missing" = .error .stopIteration := by
  obtain ⟨h1, h2, h3, h4, h5, h6⟩ := accessors_absent_raise_stopIteration specOk "missing"
  exact ⟨h1 (by decide), h2 (by decide), h3 (by decide), h4 (by decide), h5 (by decide),
    h6 (by decide)⟩

/-! ### C8 -/

/-- C8: on the `Subanalysis` wrapper, reading a name present in the
`mappings` table returns the *parent* analysis's attribute under the mapped
name, reading an unmapped name returns the nested analysis's own attribute,
writing a mapped name raises `AttributeError`, and writing an unmapped name
passes through to the nested analysis instance. -/
theorem subanalysis_wrapper_redirection (spec : SubanalysisSpec)
    (analysis parent : List (String × Value)) (name : String) (value : Value) :
    (∀ mapped, spec.mapping name = .ok mapped →
      Subanalysis.getattr spec analysis parent name = pyGetattr parent (.str mapped)
      ∧ ∃ msg, Subanalysis.setattr spec analysis name value = .error (.attributeError msg))
  ∧ ((∀ m ∈ spec.mappings, m.1 ≠ name) →
      Subanalysis.getattr spec analysis parent name = pyGetattr analysis (.str name)
      ∧ Subanalysis.setattr spec analysis name value = .ok (pySetattr analysis name value)) := by
  constructor
  · intro mapped hm
    refine ⟨?_, ?_⟩
    · simp [Subanalysis.getattr, hm]
    · refine ⟨"Cannot set value of attribute " ++ name ++ " in " ++ spec.name ++
        " sub-analysis as it is mapped to " ++ mapped ++ " in the parent analysis", ?_⟩
      simp [Subanalysis.setattr, hm]
  · intro h
    have hm : spec.mapping name = .error (.keyError ("No mapping from " ++ name ++ " in sub-analysis")) := by
      unfold SubanalysisSpec.mapping
      have hf : spec.mappings.find? (fun m => name = m.1) = Option.none := by
        rw [List.find?_eq_none]
        intro m hmem
        simpa using fun he => (h m hmem) he.symm
      rw [hf]
    exact ⟨by simp [Subanalysis.getattr, hm], by simp [Subanalysis.setattr, hm]⟩

/-- Witness for C8: with mapping `("a", "pa")`, reading `a` on the wrapper
yields the parent's `pa` value, reading the unmapped `b` yields the nested
instance's own value, writing `a` raises, and writing `b` updates the nested
instance. -/
theorem subanalysis_wrapper_redirection_witness :
    Subanalysis.getattr subMapSpec [("b", Value.int 2)] [("pa", Value.int 7)] "a"
      = .ok (Value.int 7)
  ∧ (∃ msg, Subanalysis.setattr subMapSpec [("b", Value.int 2)] "a" (Value.int 3)
      = .error (.attributeError msg))
  ∧ Subanalysis.getattr subMapSpec [("b", Value.int 2)] [("pa", Value.int 7)] "b"
      = .ok (Value.int 2)
  ∧ Subanalysis.setattr subMapSpec [("b", Value.int 2)] "b" (Value.int 3)
      = .ok [("b", Value.int 3)] := by
  obtain ⟨hmapped, -⟩ :=
    subanalysis_wrapper_redirection subMapSpec [("b", Value.int 2)] [("pa", Value.int 7)]
      "a" (Value.int 3)
  obtain ⟨hg, hs⟩ := hmapped "pa" (by decide)
  obtain ⟨-, hunmapped⟩ :=
    subanalysis_wrapper_redirection subMapSpec [("b", Value.int 2)] [("pa", Value.int 7)]
      "b" (Value.int 3)
  obtain ⟨hg2, hs2⟩ := hunmapped (by decide)
  exact ⟨hg.trans (by decide), hs, hg2.trans (by decide), hs2.trans (by decide)⟩

/-! ### C9 -/

/-- C9: a parameter write runs `_parameter_validator` (attrs runs field
validators on every assignment): with declared `choices` the write succeeds
iff the value is one of the choices, and with declared integer
`lower_bound`/`upper_bound` an integer write succeeds iff the value lies in
the closed interval; out-of-range writes raise `ValueError`. -/
theorem parameter_write_validation (p : Parameter) (attrs : List (String × Value))
    (val : Value) :
    (∀ cs, p.choices = some cs →
      ((setParameterValue p attrs val = .ok (pySetattr attrs p.name val)) ↔ val ∈ cs)
      ∧ (val ∉ cs → ∃ msg, setParameterValue p attrs val = .error (.valueError msg)))
  ∧ (∀ a b n : Int, p.choices = Option.none → p.lower_bound = some (.int a) →
      p.upper_bound = some (.int b) →
      ((setParameterValue p attrs (.int n) = .ok (pySetattr attrs p.name (.int n))) ↔
        a ≤ n ∧ n ≤ b)
      ∧ (¬ (a ≤ n ∧ n ≤ b) →
        ∃ msg, setParameterValue p attrs (.int n) = .error (.valueError msg))) := by
  constructor
  · intro cs hcs
    by_cases hv : val ∈ cs
    · constructor
      · simp [setParameterValue, parameterValidator, hcs, hv]
      · intro hv2
        exact absurd hv hv2
    · constructor
      · simp [setParameterValue, parameterValidator, hcs, hv]
      · intro _
        refine ⟨"not a valid value for " ++ p.name ++ " parameter", ?_⟩
        simp [setParameterValue, parameterValidator, hcs, hv]
  · intro a b n hcs hlb hub
    by_cases hlo : a ≤ n
    · by_cases hhi : n ≤ b
      · constructor
        · simp [setParameterValue, parameterValidator, hcs, hlb, hub, pyGe, pyLe, hlo, hhi]
        · intro hcon
          exact absurd ⟨hlo, hhi⟩ hcon
      · constructor
        · simp [setParameterValue, parameterValidator, hcs, hlb, hub, pyGe, pyLe, hlo, hhi]
        · intro _
          refine ⟨"Value of " ++ p.name ++ " is not within the specified bounds", ?_⟩
          simp [setParameterValue, parameterValidator, hcs, hlb, hub, pyGe, pyLe, hlo, hhi]
    · constructor
      · simp [setParameterValue, parameterValidator, hcs, hlb, hub, pyGe, pyLe, hlo]
      · intro _
        refine ⟨"Value of " ++ p.name ++ " is not within the specified bounds", ?_⟩
        simp [setParameterValue, parameterValidator, hcs, hlb, hub, pyGe, pyLe, hlo]

/-- Witness for C9: an in-choices write and an in-bounds write succeed, an
out-of-choices write and an out-of-bounds write raise `ValueError`. -/
theorem parameter_write_validation_witness :
    setParameterValue paramChoices [] (Value.str "fast") = .ok [("mode", Value.str "fast")]
  ∧ (∃ msg, setParameterValue paramChoices [] (Value.str "medium")
      = .error (.valueError msg))
  ∧ setParameterValue paramBounded [] (Value.int 5) = .ok [("iters", Value.int 5)]
  ∧ (∃ msg, setParameterValue paramBounded [] (Value.int 11)
      = .error (.valueError msg)) := by
  obtain ⟨hc1, -⟩ := parameter_write_validation paramChoices [] (Value.str "fast")
  obtain ⟨hok, -⟩ := hc1 [Value.str "fast", Value.str "slow"] rfl
  obtain ⟨hc2, -⟩ := parameter_write_validation paramChoices [] (Value.str "medium")
  obtain ⟨-, hbad⟩ := hc2 [Value.str "fast", Value.str "slow"] rfl
  obtain ⟨-, hb1⟩ := parameter_write_validation paramBounded [] (Value.int 5)
  obtain ⟨hbok, -⟩ := hb1 1 10 5 rfl rfl rfl
  obtain ⟨-, hb2⟩ := parameter_write_validation paramBounded [] (Value.int 11)
  obtain ⟨-, hbbad⟩ := hb2 1 10 11 rfl rfl rfl
  refine ⟨?_, hbad (by decide), ?_, hbbad (by decide)⟩
  · exact (hok.mpr (by decide)).trans (by decide)
  · exact (hbok.mpr (by decide)).trans (by decide)

/-! ### C5 -/

/-- C5: a successfully constructed `AnalysisSpec` has, for every column, no
two producing builders with an equal `(condition, switch)` pair (every
equality group has size at most one); and a column whose producers do
contain such a duplicate pair makes the per-column check of
`column_specs_validator` fail with the ambiguity diagnostic naming the
column. -/
theorem no_duplicate_condition_switch_pairs (s : AnalysisSpec) :
    (s.validate = .ok () →
      ∀ c ∈ s.column_specs,
        ∀ p ∈ s.pipeline_builders.filter (fun b => c.name ∈ b.outputs),
          (s.pipeline_builders.filter (fun b => c.name ∈ b.outputs)).countP
            (fun q => decide (q.condition = p.condition ∧ q.switch = p.switch)) ≤ 1)
  ∧ (∀ (builders : List PipelineBuilder) (c : ColumnSpec),
      (∃ p ∈ builders.filter (fun b => c.name ∈ b.outputs),
        1 < (builders.filter (fun b => c.name ∈ b.outputs)).countP
          (fun q => decide (q.condition = p.condition ∧ q.switch = p.switch))) →
      checkColumnSpec builders c =
        .error (.arcanaDesignError
          ("Multiple pipelines provide outputs for " ++ c.name ++
            " under matching conditions"))) := by
  constructor
  · intro hv c hc p hp
    have hcs := validate_ok_column_specs_validator hv
    have hcol : checkColumnSpec s.pipeline_builders c = .ok () :=
      (checkAll_ok_iff _ _).mp hcs c hc
    by_contra hgt
    have hany : ((s.pipeline_builders.filter (fun b => c.name ∈ b.outputs)).any
        (fun p => 1 <
          (s.pipeline_builders.filter (fun b => c.name ∈ b.outputs)).countP
            (fun q => decide (q.condition = p.condition ∧ q.switch = p.switch)))) = true := by
      rw [List.any_eq_true]
      exact ⟨p, hp, by simpa using Nat.lt_of_not_le (fun hle => hgt hle)⟩
    simp only [checkColumnSpec] at hcol
    rw [if_pos hany] at hcol
    exact Except.noConfusion hcol
  · intro builders c ⟨p, hp, hcount⟩
    have hany : ((builders.filter (fun b => c.name ∈ b.outputs)).any
        (fun p => 1 <
          (builders.filter (fun b => c.name ∈ b.outputs)).countP
            (fun q => decide (q.condition = p.condition ∧ q.switch = p.switch)))) = true := by
      rw [List.any_eq_true]
      exact ⟨p, hp, by simpa using hcount⟩
    simp only [checkColumnSpec]
    rw [if_pos hany]

/-- Witness for C5: the validated one-builder spec `specOk` has all groups of
size at most one, and two unconditional switch-free builders for `out` make
the per-column check fail. -/
theorem no_duplicate_condition_switch_pairs_witness :
    ((specOk.pipeline_builders.filter (fun b => colOut.name ∈ b.outputs)).countP
      (fun q => decide (q.condition = builderB2.condition ∧ q.switch = builderB2.switch)) ≤ 1)
  ∧ checkColumnSpec [builderB2, builderB3] colOut =
      .error (.arcanaDesignError
        "Multiple pipelines provide outputs for out under matching conditions") := by
  obtain ⟨h1, h2⟩ := no_duplicate_condition_switch_pairs specOk
  constructor
  · exact h1 (by decide) colOut (by decide) builderB2 (by decide)
  · exact h2 [builderB2, builderB3] colOut ⟨builderB2, by decide, by decide⟩

/-! ### C3 -/

/-- C3 counterexample: a column of salience exactly `publication`, with no
producing builder and no `mapped_from` (but consumed as an input), makes
assembly fail, although the claim says `publication` salience must be
accepted.  The validator rejects every salience whose level is less than or
equal to `publication` (analysis.py line 347: `<=`). -/
theorem publication_orphan_column_fails_assembly :
    colPubIn.salience = ColumnSalience.publication
  ∧ specPubOrphan.pipeline_builders.filter (fun p => colPubIn.name ∈ p.outputs) = []
  ∧ colPubIn.mapped_from = Option.none
  ∧ specPubOrphan.validate = .error (.arcanaDesignError
      "c is not generated by any pipeline yet its salience is not specified as raw or primary") := by
  decide

/-- C3 (amended): for a column with no producing builder and no
`mapped_from`, the per-column assembly check succeeds iff the column is an
input to at least one builder *and* its salience is strictly above
`publication` (that is, `raw` or `primary`); in particular it fails at
salience `publication` and below, and fails regardless of salience when the
column is input to no builder.  Consequently any validated spec containing
such a column satisfies both conditions. -/
theorem orphan_column_salience_threshold (builders : List PipelineBuilder) (c : ColumnSpec)
    (s : AnalysisSpec)
    (hprod : builders.filter (fun p => c.name ∈ p.outputs) = [])
    (hmap : c.mapped_from = Option.none) :
    (checkColumnSpec builders c = .ok () ↔
      builders.filter (fun p => c.name ∈ p.inputs) ≠ [] ∧
        ColumnSalience.publication.level < c.salience.level)
  ∧ (c ∈ s.column_specs → s.pipeline_builders = builders → s.validate = .ok () →
      builders.filter (fun p => c.name ∈ p.inputs) ≠ [] ∧
        ColumnSalience.publication.level < c.salience.level) := by
  have hmain : checkColumnSpec builders c = .ok () ↔
      builders.filter (fun p => c.name ∈ p.inputs) ≠ [] ∧
        ColumnSalience.publication.level < c.salience.level := by
    by_cases hin : builders.filter (fun p => c.name ∈ p.inputs) = []
    · simp [checkColumnSpec, hprod, hmap, hin]
    · by_cases hsal : c.salience.level ≤ ColumnSalience.publication.level
      · simp [checkColumnSpec, hprod, hmap, hin, hsal, Nat.not_lt_of_le hsal]
      · simp [checkColumnSpec, hprod, hmap, hin, hsal, Nat.lt_of_not_le hsal]
  refine ⟨hmain, fun hc hb hv => ?_⟩
  have hcs := validate_ok_column_specs_validator hv
  have hcol : checkColumnSpec s.pipeline_builders c = .ok () :=
    (checkAll_ok_iff _ _).mp hcs c hc
  rw [hb] at hcol
  exact hmain.mp hcol

/-- Witness for the amended C3: a `raw`-salience column that is an input to a
builder passes the per-column check, and the full spec containing it
validates, yielding both conditions. -/
theorem orphan_column_salience_threshold_witness :
    checkColumnSpec [builderIn] colRawIn = .ok ()
  ∧ ([builderIn].filter (fun p => colRawIn.name ∈ p.inputs) ≠ [] ∧
      ColumnSalience.publication.level < colRawIn.salience.level) := by
  obtain ⟨h1, h2⟩ :=
    orphan_column_salience_threshold [builderIn] colRawIn specRawOrphan (by decide) (by decide)
  exact ⟨h1.mpr ⟨by decide, by decide⟩, h2 (by decide) (by decide) (by decide)⟩

/-! ### C6 -/

theorem extend_unless_present_append (lst : List PipelineBuilder) :
    ∀ bs : List PipelineBuilder, ∃ ex, extend_unless_present lst bs = lst ++ ex := by
  intro bs
  induction bs generalizing lst with
  | nil => exact ⟨[], by simp [extend_unless_present]⟩
  | cons b bs ih =>
    by_cases hb : b.name ∈ lst.map PipelineBuilder.name
    · obtain ⟨ex, he⟩ := ih lst
      exact ⟨ex, by simp [extend_unless_present, hb, he]⟩
    · obtain ⟨ex, he⟩ := ih (lst ++ [b])
      refine ⟨b :: ex, ?_⟩
      simp only [extend_unless_present, hb, if_neg]
      rw [he, List.append_assoc]
      simp

theorem find?_extend_unless_present (lst bs : List PipelineBuilder)
    (p : PipelineBuilder → Bool) (b : PipelineBuilder) (h : lst.find? p = some b) :
    (extend_unless_present lst bs).find? p = some b := by
  obtain ⟨ex, he⟩ := extend_unless_present_append lst bs
  rw [he, List.find?_append, h]
  rfl

/-- C6: the override check of the merge engine succeeds iff every pipeline
builder of the base spec that is re-declared under the same name keeps all
of the base version's outputs; when it succeeds, the merge keeps the derived
builder for that name (the base copy is not re-appended) and the derived
builder's outputs equal the union of the base and derived output sets. -/
theorem override_preserves_outputs (locals bases : List PipelineBuilder) :
    (check_overridden_outputs locals bases = .ok () ↔
      ∀ bb ∈ bases, ∀ b, locals.find? (fun x => x.name = bb.name) = some b →
        ∀ o ∈ bb.outputs, o ∈ b.outputs)
  ∧ (check_overridden_outputs locals bases = .ok () →
      merge_base_builders locals bases = .ok (extend_unless_present locals bases)
      ∧ ∀ bb ∈ bases, ∀ b, locals.find? (fun x => x.name = bb.name) = some b →
          (extend_unless_present locals bases).find? (fun x => x.name = bb.name) = some b
          ∧ (∀ o, o ∈ b.outputs ↔ o ∈ bb.outputs ∨ o ∈ b.outputs)) := by
  have hiff : check_overridden_outputs locals bases = .ok () ↔
      ∀ bb ∈ bases, ∀ b, locals.find? (fun x => x.name = bb.name) = some b →
        ∀ o ∈ bb.outputs, o ∈ b.outputs := by
    unfold check_overridden_outputs
    rw [checkAll_ok_iff]
    constructor
    · intro h bb hbb b hfb o ho
      have hb := h bb hbb
      rw [hfb] at hb
      by_contra hno
      have hb2 : (if (bb.outputs.filter (fun o => decide (o ∉ b.outputs))).isEmpty = true
          then (Except.ok () : Except PyError Unit)
          else .error (.arcanaDesignError ("outputs are missing from " ++ b.name ++
            " pipeline builder, which were defined by the overridden method")))
          = .ok () := hb
      have hne : (bb.outputs.filter (fun o => decide (o ∉ b.outputs))).isEmpty = false := by
        cases hE : (bb.outputs.filter (fun o => decide (o ∉ b.outputs))).isEmpty with
        | false => rfl
        | true =>
          exfalso
          have h0 := List.isEmpty_iff.mp hE
          rw [List.filter_eq_nil_iff] at h0
          exact hno (by simpa using h0 o ho)
      rw [if_neg (by intro hcontra; rw [hne] at hcontra; exact Bool.noConfusion hcontra)] at hb2
      exact Except.noConfusion hb2
    · intro h bb hbb
      cases hfb : locals.find? (fun x => x.name = bb.name) with
      | none => rfl
      | some b =>
        have hsub := h bb hbb b hfb
        have he : (bb.outputs.filter (fun o => decide (o ∉ b.outputs))) = [] := by
          rw [List.filter_eq_nil_iff]
          intro o ho
          simpa using hsub o ho
        simp only [he]
        simp
  refine ⟨hiff, fun hok => ⟨?_, fun bb hbb b hfb => ⟨?_, fun o => ?_⟩⟩⟩
  · unfold merge_base_builders
    rw [hok]
  · exact find?_extend_unless_present locals bases _ b hfb
  · constructor
    · intro ho
      exact Or.inr ho
    · rintro (ho | ho)
      · exact hiff.mp hok bb hbb b hfb o ho
      · exact ho

/-- Witness for C6: overriding `p` (base outputs `{x}`) with outputs
`{x, y}` passes the check, the merged list keeps the derived builder, and
its outputs are the union. -/
theorem override_preserves_outputs_witness :
    check_overridden_outputs [derivedP] [baseP] = .ok ()
  ∧ merge_base_builders [derivedP] [baseP] = .ok [derivedP]
  ∧ (extend_unless_present [derivedP] [baseP]).find? (fun x => x.name = baseP.name)
      = some derivedP
  ∧ ("y" ∈ derivedP.outputs ↔ "y" ∈ baseP.outputs ∨ "y" ∈ derivedP.outputs) := by
  have hok : check_overridden_outputs [derivedP] [baseP] = .ok () := by decide
  obtain ⟨-, h2⟩ := override_preserves_outputs [derivedP] [baseP]
  obtain ⟨hm, hall⟩ := h2 hok
  obtain ⟨hfind, hunion⟩ := hall baseP (by decide) derivedP (by decide)
  refine ⟨hok, ?_, hfind, hunion "y"⟩
  rw [hm]
  decide

/-! ### C1, C2, C4: the dispatcher (code defects) -/

/-- C1 (code defect at analysis.py lines 97-105): with exactly one selected
builder (the unconditional `builderB2`, which carries no switch) the claim
requires the selection to be returned without an ambiguity error, but
`all_switches.count(p.switch)` counts each builder's own switch, so the
count is 1 (truthy) and the dispatcher raises the ambiguity error. -/
theorem single_selected_builder_raises_ambiguity :
    specOk.pipeline_builders.filter
      (fun p => decide (colOut.name ∈ p.outputs) && p.condition.isNone) = [builderB2]
  ∧ builderB2.switch = Option.none
  ∧ colOut.select_pipeline_builders instOk dsEmpty =
      .error (.arcanaDesignError
        "Multiple potential pipelines match criteria for the given analysis configuration and provided dataset") := by
  decide

/-- C2 (code defect at analysis.py lines 74-81): for a column with one
conditional builder (whose condition would be false for the instance, here
`mode = "slow"`) and one unconditional builder, the claim requires the
unconditional builder to be returned; instead the dispatcher raises
`TypeError`, because `m.condition.evaluate(self, analysis, dataset)` passes
three positional arguments to the two-parameter `Operation.evaluate`.  The
second conjunct shows the condition could not be evaluated even with the
right arity: `Operation.evaluate` calls `.evaluate` on the literal operand
(line 32) and raises `AttributeError`. -/
theorem conditional_fallback_raises_typeError :
    colOut.select_pipeline_builders instModeSlow dsEmpty =
      .error (.typeError "evaluate() takes 3 positional arguments but 4 were given")
  ∧ Operation.evaluate opModeIsFast [("mode", Value.str "slow")] dsEmpty =
      .error (.attributeError "operand object has no attribute evaluate") := by
  decide

/-- C4 (code defect at analysis.py line 88): for a column with
`mapped_from = ("sub", "inner")` and no local producing builder, the claim
requires delegation into the subanalysis to return `builderInner`; instead
the dispatcher raises `AttributeError`, because it calls
`subanalysis.__spec__.column(...)` while `AnalysisSpec` only defines the
accessor `column_spec` (lines 296-297), so the recursive call of line 89 is
never reached. -/
theorem delegation_raises_attributeError :
    colMapped.mapped_from = some ("sub", "inner")
  ∧ specOuter.pipeline_builders.filter (fun p => colMapped.name ∈ p.outputs) = []
  ∧ specInner.pipeline_builders.filter (fun p => colInner.name ∈ p.outputs)
      = [builderInner]
  ∧ colMapped.select_pipeline_builders instOuter dsEmpty =
      .error (.attributeError "AnalysisSpec object has no attribute column") := by
  decide

/-! ### C7: `is_provided` evaluation (code defect) -/

/-- C7 (code defect at analysis.py line 32): evaluating an `is_provided`
Operation must return `False` for an unbound slot, `True` for a bound slot
without a format operand, and the format-compatibility test otherwise; but
`evaluate` first maps `o.evaluate(analysis, dataset)` over *all* operands,
and the resolved column-name operand is a plain string without an `evaluate`
attribute, so every evaluation raises `AttributeError` before the
`is_provided` branch (lines 36-49) is reached — in the unbound case, the
bound case, and the bound-with-format case alike. -/
theorem is_provided_raises_attributeError :
    Operation.evaluate opIsProvidedX [("x", Value.none)] dsEmpty =
      .error (.attributeError "operand object has no attribute evaluate")
  ∧ Operation.evaluate opIsProvidedX [("x", Value.str "colx")] dsWithColx =
      .error (.attributeError "operand object has no attribute evaluate")
  ∧ Operation.evaluate (.node "is_provided" [.lit (.str "x"), .lit (.fmt fmtOther)])
      [("x", Value.str "colx")] dsWithColx =
      .error (.attributeError "operand object has no attribute evaluate") := by
  decide
